import Mathlib

/-!
Verification of the speech-synthesis cache and provider-fallback engine of the
gpti backend (src/index.js, endpoints POST /api/v1/tts/speak and
DELETE /api/v1/documents/:id).

Strings are modelled as lists of characters (`Str`), audio byte buffers as
lists of natural numbers (`Audio`), and the flat `audio_cache` directory as an
association list from file names to audio bytes (`Store`).  The SHA-256 digest
is kept abstract: every definition takes a parameter `hash : Str → Str`; where
a claim needs collision-freedom the theorem assumes `Function.Injective hash`,
matching the source's stated reliance on a cryptographic hash.  JavaScript
float literals for speaking rate / pitch / volume gain are modelled exactly as
integers in hundredths (1.15 becomes 115), since no arithmetic is ever
performed on them.
-/

abbrev Str := List Char

abbrev Audio := List Nat

abbrev Store := List (Str × Audio)

instance {ε α : Type} [DecidableEq ε] [DecidableEq α] : DecidableEq (Except ε α) := fun a b =>
  match a, b with
  | .ok x, .ok y =>
      if h : x = y then isTrue (by rw [h]) else isFalse (by intro hc; cases hc; exact h rfl)
  | .error x, .error y =>
      if h : x = y then isTrue (by rw [h]) else isFalse (by intro hc; cases hc; exact h rfl)
  | .ok _, .error _ => isFalse (by intro hc; cases hc)
  | .error _, .ok _ => isFalse (by intro hc; cases hc)

/-! String constants appearing in the source. -/

def pipeS : Str := "|".data

def mp3S : Str := ".mp3".data

def femeninaS : Str := "femenina".data

def masculinaS : Str := "masculina".data

def esS : Str := "es".data

def enS : Str := "en".data

def profesorS : Str := "profesor".data

def podcastS : Str := "podcast".data

def cuentosS : Str := "cuentos".data

def koreS : Str := "Kore".data

def callirrhoeS : Str := "Callirrhoe".data

def orusS : Str := "Orus".data

def charonS : Str := "Charon".data

def geminiTtsModelS : Str := "gemini-2.5-flash-tts".data

def esESS : Str := "es-ES".data

def usSuffixS : Str := "-US".data

def stdEsMascS : Str := "es-ES-Standard-B".data

def stdEsFemS : Str := "es-ES-Standard-C".data

def stdEnMascS : Str := "en-US-Standard-B".data

def stdEnFemS : Str := "en-US-Standard-C".data

def modelWordS : Str := "model".data

/-- List of language codes accepted by the gTTS fallback (src/index.js line 1395). -/
def validLangs : List Str :=
  [esS, enS, "fr".data, "de".data, "it".data, "pt".data, "ru".data, "ja".data,
   "ko".data, "zh".data, "ar".data, "hi".data]

/-! JavaScript truthiness helpers.  In the source, `voiceType || 'femenina'`
falls back to the default when the field is absent, null, or the empty string;
`voiceStyle || null` and `voiceDescription || null` normalize absent or empty
strings to null. -/

/-- Model of `v || d` for a possibly-absent string `v` and string default `d`. -/
def jsOrStr (v : Option Str) (d : Str) : Str :=
  match v with
  | some s => if s.isEmpty then d else s
  | none => d

/-- Model of `v || null` for a possibly-absent string `v`. -/
def jsToNull (v : Option Str) : Option Str :=
  match v with
  | some s => if s.isEmpty then none else some s
  | none => none

/-- Model of `a || b` where both operands are possibly-undefined strings. -/
def jsOrOpt (a b : Option Str) : Option Str :=
  match a with
  | some s => if s.isEmpty then b else some s
  | none => b

/-! Cache key derivation (src/index.js lines 1159-1176). -/

/-- Input of the SHA-256 cache hash (src/index.js lines 1169-1171): with a
style, `text|style|lang|description-or-empty`; without a style,
`text|voiceType|lang`. -/
def cacheKeyInput (textToConvert : Str) (style : Option Str) (voiceType lang : Str)
    (desc : Option Str) : Str :=
  match style with
  | some st => textToConvert ++ pipeS ++ st ++ pipeS ++ lang ++ pipeS ++ desc.getD []
  | none => textToConvert ++ pipeS ++ voiceType ++ pipeS ++ lang

/-! Invalidation reconstruction (src/index.js lines 455-515, document delete
endpoint). -/

/-- Canonical string hashed during invalidation (src/index.js line 479):
`textToSearch|voiceType|lang`. -/
def candText (t vt lg : Str) : Str := t ++ pipeS ++ vt ++ pipeS ++ lg

/-- Voice types enumerated during invalidation (src/index.js line 470). -/
def voiceTypes : List Str := [femeninaS, masculinaS]

/-- Languages enumerated during invalidation (src/index.js line 471). -/
def languages : List Str := [esS, enS]

/-- The set of candidate hashes built by the nested loops of
src/index.js lines 475-484. -/
def hashesToDelete (hash : Str → Str) (textToSearch : Str) : List Str :=
  voiceTypes.flatMap (fun vt => languages.map (fun lg => hash (candText textToSearch vt lg)))

/-- Candidate cache file names for a document text: each candidate hash with
the `.mp3` extension, after the invalidation-time truncation to 5000
characters. -/
def candidateNames (hash : Str → Str) (docText : Str) : List Str :=
  (hashesToDelete hash (docText.take 5000)).map (fun h => h ++ mp3S)

/-- Model of JavaScript `file.replace('.mp3', '')`: removes the first
occurrence of the pattern, leaves the string unchanged when absent. -/
def replaceFirst (pat : Str) : Str → Str
  | [] => []
  | c :: rest =>
      if pat <+: (c :: rest) then (c :: rest).drop pat.length
      else c :: replaceFirst pat rest

/-- Condition under which the delete loop (src/index.js lines 490-507) removes
a cache file: the name ends in `.mp3` and the name with its first `.mp3`
removed is among the candidate hashes. -/
def fileMatches (hs : List Str) (name : Str) : Bool :=
  decide (mp3S <:+ name) && decide (replaceFirst mp3S name ∈ hs)

/-- The forEach deletion loop: removes every matching file and counts the
removals. -/
def deleteMatching (hs : List Str) : Store → Store × Nat
  | [] => ([], 0)
  | e :: rest =>
      let r := deleteMatching hs rest
      if fileMatches hs e.1 then (r.1, r.2 + 1) else (e :: r.1, r.2)

/-- The cache-invalidation part of the document delete endpoint
(src/index.js lines 455-515): truncates the document text to 5000 characters,
reconstructs the candidate hashes for every enumerated voice type and
language, deletes matching `.mp3` files, and produces the count of files
actually removed (`deletedCount`). -/
def invalidateForDocument (hash : Str → Str) (docText : Str) (store : Store) : Store × Nat :=
  deleteMatching (hashesToDelete hash (docText.take 5000)) store

/-! The content-addressable store. -/

/-- Model of `fs.existsSync` + `fs.readFileSync` on the cache directory. -/
def Store.findFile? (s : Store) (n : Str) : Option Audio :=
  (s.find? (fun e => decide (e.1 = n))).map Prod.snd

/-- Model of `fs.writeFileSync`: creates or overwrites the named file. -/
def Store.insertFile (s : Store) (n : Str) (b : Audio) : Store :=
  (n, b) :: s.filter (fun e => !decide (e.1 = n))

/-! The synthesis request and environment. -/

/-- Body of POST /api/v1/tts/speak (src/index.js line 1150); absent fields are
`none`, `lang` defaults to `es` at destructuring time. -/
structure SpeakReq where
  text : Str
  lang : Option Str
  voiceDescription : Option Str
  voiceType : Option Str
  voiceStyle : Option Str
deriving DecidableEq, Repr

/-- Presence of the three credential signals probed at src/index.js
lines 1213-1215. -/
structure Env where
  googleAppCredentials : Bool
  googleCloudProject : Bool
  adcFileExists : Bool
deriving DecidableEq, Repr

/-- `useGoogleTTS` (src/index.js line 1213): the cloud backend is attempted
only when at least one credential signal is present. -/
def Env.useGoogleTTS (e : Env) : Bool :=
  e.googleAppCredentials || e.googleCloudProject || e.adcFileExists

/-- Request sent to the cloud `synthesizeSpeech` call (src/index.js
lines 1277-1290 and 1314-1326).  Rate, pitch and gain are in hundredths. -/
structure CloudRequest where
  text : Str
  languageCode : Str
  name : Option Str
  model : Option Str
  speakingRate : Int
  pitch : Int
  volumeGainDb : Int
deriving DecidableEq, Repr

/-- Error thrown by the cloud backend; only its message is inspected. -/
structure CloudErr where
  message : Str
deriving DecidableEq, Repr

/-- One invocation of a synthesis backend, for tracking which providers a
request reached. -/
inductive BackendCall where
  | cloud (req : CloudRequest)
  | gtts (text lang : Str)
deriving DecidableEq, Repr

/-- Caller-visible failures of the speak endpoint: the 400 for empty text and
the 500s of the gTTS save callback. -/
inductive SpeakErr where
  | emptyText
  | gttsSave (msg : Str)
  | gttsEmpty
deriving DecidableEq, Repr

/-- Result of one request: the response (audio bytes or error), the cache
directory afterwards, and the backend calls that were made. -/
structure Outcome where
  result : Except SpeakErr Audio
  store : Store
  calls : List BackendCall
deriving DecidableEq, Repr

/-! Request field resolution (src/index.js lines 1150-1165). -/

/-- `textToConvert` (line 1160): the text truncated to 5000 characters. -/
def reqTrunc (req : SpeakReq) : Str := req.text.take 5000

/-- Resolved language: the `lang` body field with destructuring default `es`. -/
def reqLang (req : SpeakReq) : Str := req.lang.getD esS

/-- `finalVoiceType` (line 1163): `voiceType || 'femenina'`. -/
def reqVoiceType (req : SpeakReq) : Str := jsOrStr req.voiceType femeninaS

/-- `finalVoiceStyle` (line 1164): `voiceStyle || null`. -/
def reqStyle (req : SpeakReq) : Option Str := jsToNull req.voiceStyle

/-- `finalVoiceDescription` (line 1165): `voiceDescription || null`. -/
def reqDesc (req : SpeakReq) : Option Str := jsToNull req.voiceDescription

/-- Name of the cache file consulted and written by the speak endpoint:
the hash of `cacheKeyInput` with the `.mp3` extension (lines 1173-1185). -/
def speakFileName (hash : Str → Str) (req : SpeakReq) : Str :=
  hash (cacheKeyInput (reqTrunc req) (reqStyle req) (reqVoiceType req) (reqLang req)
    (reqDesc req)) ++ mp3S

/-! The cloud (Google) backend, src/index.js lines 1218-1356. -/

/-- Gemini voice map (src/index.js lines 1225-1240): `voiceMap[lang]?.[key]`. -/
def voiceMapLookup (l k : Str) : Option Str :=
  if l = esS then
    if k = masculinaS then some koreS
    else if k = femeninaS then some callirrhoeS
    else if k = profesorS then some koreS
    else if k = podcastS then some koreS
    else if k = cuentosS then some callirrhoeS
    else none
  else if l = enS then
    if k = masculinaS then some orusS
    else if k = femeninaS then some charonS
    else if k = profesorS then some orusS
    else if k = podcastS then some orusS
    else if k = cuentosS then some charonS
    else none
  else none

/-- Whether `voiceMap[l]` is defined, i.e. `l` is `es` or `en`. -/
def voiceMapHasLang (l : Str) : Bool := decide (l = esS) || decide (l = enS)

/-- Language normalization of the cloud branch (src/index.js lines 1243-1246):
strip a region subtag, then fall back to `es` when the result is not a
`voiceMap` key. -/
def googleNormalizedLang (lang : Str) : Str :=
  let nl := if lang.contains '-' then lang.takeWhile (fun c => !(c == '-')) else lang
  if voiceMapHasLang nl then nl else esS

/-- Standard voice map used by the intra-backend retry (src/index.js
lines 1302-1311). -/
def standardVoiceMapLookup (l k : Str) : Option Str :=
  if l = esS then
    if k = masculinaS then some stdEsMascS
    else if k = femeninaS then some stdEsFemS
    else none
  else if l = enS then
    if k = masculinaS then some stdEnMascS
    else if k = femeninaS then some stdEnFemS
    else none
  else none

/-- Audio parameters per voice style (src/index.js lines 1253-1273), in
hundredths: neutral (100, 0, 0); podcast (115, 400, 200); cuentos
(85, -200, -100); profesor (100, 100, 50). -/
def styleParams (style : Option Str) : Int × Int × Int :=
  if style = some podcastS then (115, 400, 200)
  else if style = some cuentosS then (85, -200, -100)
  else if style = some profesorS then (100, 100, 50)
  else (100, 0, 0)

/-- `languageCode` sent to the cloud backend (src/index.js line 1251). -/
def googleLanguageCode (nl : Str) : Str := if nl = esS then esESS else nl ++ usSuffixS

/-- The Gemini-TTS request (src/index.js lines 1277-1290): voice selected by
`voiceStyle || voiceType` with fallback to the feminine voice, model
`gemini-2.5-flash-tts`, style-dependent parameters. -/
def enhancedRequest (textToConvert lang : Str) (style : Option Str) (vt : Str) : CloudRequest :=
  { text := textToConvert
    languageCode := googleLanguageCode (googleNormalizedLang lang)
    name := jsOrOpt (voiceMapLookup (googleNormalizedLang lang) (jsOrStr style vt))
      (voiceMapLookup (googleNormalizedLang lang) femeninaS)
    model := some geminiTtsModelS
    speakingRate := (styleParams style).1
    pitch := (styleParams style).2.1
    volumeGainDb := (styleParams style).2.2 }

/-- The standard-voice retry request (src/index.js lines 1314-1326): voice
from the standard map by `finalVoiceType`, no model field, neutral
parameters. -/
def standardRequest (textToConvert lang vt : Str) : CloudRequest :=
  { text := textToConvert
    languageCode := googleLanguageCode (googleNormalizedLang lang)
    name := jsOrOpt (standardVoiceMapLookup (googleNormalizedLang lang) vt)
      (standardVoiceMapLookup (googleNormalizedLang lang) femeninaS)
    model := none
    speakingRate := 100
    pitch := 0
    volumeGainDb := 0 }

/-- Classification at src/index.js line 1300: a truthy message that contains
the word `model`. -/
def isModelError (e : CloudErr) : Bool :=
  !e.message.isEmpty && decide (modelWordS <:+: e.message)

/-- Language validation of the gTTS fallback (src/index.js lines 1387-1399):
strip a region subtag, then coerce to `es` unless on the allow-list. -/
def gttsNormalizedLang (lang : Str) : Str :=
  let nl := if lang.contains '-' then lang.takeWhile (fun c => !(c == '-')) else lang
  if validLangs.contains nl then nl else esS

/-- The gTTS fallback stage (src/index.js lines 1361-1470): a second cache
check, then synthesis via gTTS with the validated language; a save error or an
empty audio file is a 500 with no cache write, otherwise the bytes are cached
and returned.  The save-error and file-not-created checks of the callback are
both failures of the `fallback` oracle. -/
def gttsStage (fallback : Str → Str → Except Str Audio) (store : Store)
    (fileName textToConvert lang : Str) (calls : List BackendCall) : Outcome :=
  match Store.findFile? store fileName with
  | some bytes => ⟨.ok bytes, store, calls⟩
  | none =>
      match fallback textToConvert (gttsNormalizedLang lang) with
      | .error msg =>
          ⟨.error (.gttsSave msg), store, calls ++ [.gtts textToConvert (gttsNormalizedLang lang)]⟩
      | .ok audio =>
          if audio.isEmpty then
            ⟨.error .gttsEmpty, store, calls ++ [.gtts textToConvert (gttsNormalizedLang lang)]⟩
          else
            ⟨.ok audio, Store.insertFile store fileName audio,
              calls ++ [.gtts textToConvert (gttsNormalizedLang lang)]⟩

/-- The cloud backend stage (src/index.js lines 1218-1356): attempt the
Gemini-TTS request; on an unsupported-model error retry once with the standard
voice; on success write the cache and return; on any unrecovered failure fall
through to the gTTS stage. -/
def googleStage (cloud : CloudRequest → Except CloudErr Audio)
    (fallback : Str → Str → Except Str Audio) (store : Store)
    (fileName textToConvert lang : Str) (style : Option Str) (vt : Str) : Outcome :=
  match cloud (enhancedRequest textToConvert lang style vt) with
  | .ok audio =>
      ⟨.ok audio, Store.insertFile store fileName audio,
        [.cloud (enhancedRequest textToConvert lang style vt)]⟩
  | .error e =>
      if isModelError e then
        match cloud (standardRequest textToConvert lang vt) with
        | .ok audio =>
            ⟨.ok audio, Store.insertFile store fileName audio,
              [.cloud (enhancedRequest textToConvert lang style vt),
               .cloud (standardRequest textToConvert lang vt)]⟩
        | .error _ =>
            gttsStage fallback store fileName textToConvert lang
              [.cloud (enhancedRequest textToConvert lang style vt),
               .cloud (standardRequest textToConvert lang vt)]
      else
        gttsStage fallback store fileName textToConvert lang
          [.cloud (enhancedRequest textToConvert lang style vt)]

/-- The speak endpoint, src/index.js lines 1148-1478: validation, truncation,
cache-key derivation from the raw language, cache lookup, then the provider
chain (cloud backend only when credentials are present, gTTS otherwise or on
failure). -/
def speak (hash : Str → Str) (env : Env) (cloud : CloudRequest → Except CloudErr Audio)
    (fallback : Str → Str → Except Str Audio) (store : Store) (req : SpeakReq) : Outcome :=
  if req.text.all Char.isWhitespace then ⟨.error .emptyText, store, []⟩
  else
    match Store.findFile? store (speakFileName hash req) with
    | some bytes => ⟨.ok bytes, store, []⟩
    | none =>
        if env.useGoogleTTS then
          googleStage cloud fallback store (speakFileName hash req) (reqTrunc req) (reqLang req)
            (reqStyle req) (reqVoiceType req)
        else
          gttsStage fallback store (speakFileName hash req) (reqTrunc req) (reqLang req) []

/-- Modelled from the spec: the CacheFingerprint section of the specification
describes the canonical string as `text | styleOrType | language |
description-or-empty`, a four-field string in every case.  This definition
follows the spec's words and is compared against `cacheKeyInput`, which is
translated from the source. -/
def specCanonicalString (text : Str) (style : Option Str) (voiceType lang : Str)
    (desc : Option Str) : Str :=
  text ++ pipeS ++ (style.getD voiceType) ++ pipeS ++ lang ++ pipeS ++ desc.getD []

/-! Helper lemmas about the store and the invalidation scan. -/

theorem findFile_insert (s : Store) (n : Str) (b : Audio) :
    Store.findFile? (Store.insertFile s n b) n = some b := by
  simp [Store.findFile?, Store.insertFile, List.find?_cons_of_pos]

theorem append_ne_of_rev_incomp (s1 s2 t1 t2 : Str)
    (h1 : ¬ (s1.reverse <+: s2.reverse)) (h2 : ¬ (s2.reverse <+: s1.reverse)) :
    t1 ++ s1 ≠ t2 ++ s2 := by
  intro h
  have hr : s1.reverse ++ t1.reverse = s2.reverse ++ t2.reverse := by
    have := congrArg List.reverse h
    simpa [List.reverse_append] using this
  have ha : s1.reverse <+: s1.reverse ++ t1.reverse := List.prefix_append _ _
  have hb : s2.reverse <+: s1.reverse ++ t1.reverse := by
    rw [hr]
    exact List.prefix_append _ _
  rcases List.prefix_or_prefix_of_prefix ha hb with hp | hp
  · exact h1 hp
  · exact h2 hp

theorem candText_assoc (t vt lg : Str) :
    candText t vt lg = t ++ (pipeS ++ (vt ++ (pipeS ++ lg))) := by
  simp [candText, List.append_assoc]

theorem candText_inj {t1 t2 vt1 vt2 lg1 lg2 : Str}
    (hv1 : vt1 ∈ voiceTypes) (hv2 : vt2 ∈ voiceTypes)
    (hl1 : lg1 ∈ languages) (hl2 : lg2 ∈ languages)
    (h : candText t1 vt1 lg1 = candText t2 vt2 lg2) :
    t1 = t2 ∧ vt1 = vt2 ∧ lg1 = lg2 := by
  rw [candText_assoc, candText_assoc] at h
  simp only [voiceTypes, languages, List.mem_cons, List.not_mem_nil, or_false] at hv1 hv2 hl1 hl2
  rcases hv1 with rfl | rfl <;> rcases hv2 with rfl | rfl <;>
    rcases hl1 with rfl | rfl <;> rcases hl2 with rfl | rfl <;>
      first
        | exact ⟨List.append_cancel_right h, rfl, rfl⟩
        | exact absurd h (append_ne_of_rev_incomp _ _ _ _ (by decide) (by decide))

theorem replaceFirst_hash_mp3 {h : Str} (hdot : '.' ∉ h) :
    replaceFirst mp3S (h ++ mp3S) = h := by
  induction h with
  | nil => decide
  | cons c rest ih =>
      have hc : c ≠ '.' := by
        intro e
        exact hdot (e ▸ List.mem_cons_self _ _)
      have hrest : '.' ∉ rest := fun hm => hdot (List.mem_cons_of_mem _ hm)
      have hnp : ¬ (mp3S <+: c :: (rest ++ mp3S)) := by
        rw [show mp3S = '.' :: "mp3".data from rfl, List.cons_prefix_cons]
        rintro ⟨h1, -⟩
        exact hc h1.symm
      rw [List.cons_append]
      simp only [replaceFirst, if_neg hnp, ih hrest]

theorem fileMatches_wf {hash : Str → Str} (hs : List Str) {s : Str} (hdot : '.' ∉ hash s) :
    fileMatches hs (hash s ++ mp3S) = decide (hash s ∈ hs) := by
  simp [fileMatches, List.suffix_append, replaceFirst_hash_mp3 hdot]

theorem mem_map_mp3 {h : Str} {hs : List Str} :
    (h ++ mp3S) ∈ hs.map (fun x => x ++ mp3S) ↔ h ∈ hs := by
  simp only [List.mem_map]
  constructor
  · rintro ⟨x, hx, he⟩
    exact (List.append_cancel_right he) ▸ hx
  · exact fun hh => ⟨h, hh, rfl⟩

theorem deleteMatching_eq_filter (hs : List Str) (store : Store) :
    deleteMatching hs store =
      (store.filter (fun e => !fileMatches hs e.1),
       (store.filter (fun e => fileMatches hs e.1)).length) := by
  induction store with
  | nil => rfl
  | cons e rest ih =>
      by_cases hm : fileMatches hs e.1 <;> simp [deleteMatching, ih, List.filter_cons, hm]

theorem length_filter_mem {names c : List Str} (hnd : names.Nodup) (hcnd : c.Nodup)
    (hsub : ∀ x ∈ c, x ∈ names) :
    (names.filter (fun x => decide (x ∈ c))).length = c.length := by
  have hf : (names.filter (fun x => decide (x ∈ c))).Nodup := hnd.filter _
  have ht : (names.filter (fun x => decide (x ∈ c))).toFinset = c.toFinset := by
    ext x
    simp only [List.mem_toFinset, List.mem_filter, decide_eq_true_eq]
    exact ⟨fun hx => hx.2, fun hx => ⟨hsub x hx, hx⟩⟩
  have h1 := List.toFinset_card_of_nodup hf
  have h2 := List.toFinset_card_of_nodup hcnd
  rw [ht] at h1
  exact h1.symm.trans h2

theorem length_filter_store (store : Store) (c : List Str) :
    (store.filter (fun e => decide (e.1 ∈ c))).length =
      ((store.map Prod.fst).filter (fun n => decide (n ∈ c))).length := by
  induction store with
  | nil => rfl
  | cons e rest ih => by_cases hp : e.1 ∈ c <;> simp [List.filter_cons, hp, ih]

theorem candidateNames_length (hash : Str → Str) (docText : Str) :
    (candidateNames hash docText).length = 4 := by
  simp [candidateNames, hashesToDelete, voiceTypes, languages]

theorem candidateNames_nodup (hash : Str → Str) (hinj : Function.Injective hash)
    (docText : Str) : (candidateNames hash docText).Nodup := by
  have hne : ∀ vt1 lg1 vt2 lg2 : Str, vt1 ∈ voiceTypes → lg1 ∈ languages →
      vt2 ∈ voiceTypes → lg2 ∈ languages → (vt1 ≠ vt2 ∨ lg1 ≠ lg2) →
      hash (candText (docText.take 5000) vt1 lg1) ++ mp3S ≠
        hash (candText (docText.take 5000) vt2 lg2) ++ mp3S := by
    intro vt1 lg1 vt2 lg2 h1 h2 h3 h4 hd he
    obtain ⟨-, hv, hl⟩ := candText_inj h1 h3 h2 h4 (hinj (List.append_cancel_right he))
    rcases hd with hd | hd
    · exact hd hv
    · exact hd hl
  have h12 := hne femeninaS esS femeninaS enS (by decide) (by decide) (by decide) (by decide)
    (by decide)
  have h13 := hne femeninaS esS masculinaS esS (by decide) (by decide) (by decide) (by decide)
    (by decide)
  have h14 := hne femeninaS esS masculinaS enS (by decide) (by decide) (by decide) (by decide)
    (by decide)
  have h23 := hne femeninaS enS masculinaS esS (by decide) (by decide) (by decide) (by decide)
    (by decide)
  have h24 := hne femeninaS enS masculinaS enS (by decide) (by decide) (by decide) (by decide)
    (by decide)
  have h34 := hne masculinaS esS masculinaS enS (by decide) (by decide) (by decide) (by decide)
    (by decide)
  simp [candidateNames, hashesToDelete, voiceTypes, languages, List.nodup_cons,
    h12, h13, h14, h23, h24, h34]

/-- Claim C1: for every document whose truncated text is cached under all four
enumerated candidates (voice types `femenina`/`masculina` crossed with
languages `es`/`en`, no style), `invalidateForDocument` removes exactly those
four store entries and yields the count 4; an immediately repeated
`invalidateForDocument` on the same text yields 0 and is a non-error outcome.
Stated over any injective hash whose digests for the cached entries contain no
dot, for a well-formed store (every file is `{digest}.mp3`) with distinct file
names containing all four candidate names. -/
theorem claim_C1 (hash : Str → Str) (hinj : Function.Injective hash)
    (docText : Str) (store : Store)
    (hwf : ∀ e ∈ store, ∃ s, e.1 = hash s ++ mp3S ∧ '.' ∉ hash s)
    (hnd : (store.map Prod.fst).Nodup)
    (hall : ∀ n ∈ candidateNames hash docText, n ∈ store.map Prod.fst) :
    invalidateForDocument hash docText store =
      (store.filter (fun e => !decide (e.1 ∈ candidateNames hash docText)), 4) ∧
    invalidateForDocument hash docText
        (store.filter (fun e => !decide (e.1 ∈ candidateNames hash docText))) =
      (store.filter (fun e => !decide (e.1 ∈ candidateNames hash docText)), 0) := by
  have hcong : ∀ e ∈ store, fileMatches (hashesToDelete hash (docText.take 5000)) e.1 =
      decide (e.1 ∈ candidateNames hash docText) := by
    intro e he
    obtain ⟨s, hes, hdot⟩ := hwf e he
    rw [hes, fileMatches_wf _ hdot]
    refine (decide_eq_decide.mpr ?_)
    simp only [candidateNames]
    exact mem_map_mp3.symm
  have hfs : store.filter (fun e => !fileMatches (hashesToDelete hash (docText.take 5000)) e.1) =
      store.filter (fun e => !decide (e.1 ∈ candidateNames hash docText)) :=
    List.filter_congr (fun e he => by rw [hcong e he])
  have hlen : (store.filter
      (fun e => fileMatches (hashesToDelete hash (docText.take 5000)) e.1)).length = 4 := by
    have heq : store.filter
        (fun e => fileMatches (hashesToDelete hash (docText.take 5000)) e.1) =
        store.filter (fun e => decide (e.1 ∈ candidateNames hash docText)) :=
      List.filter_congr (fun e he => hcong e he)
    rw [heq, length_filter_store store (candidateNames hash docText),
      length_filter_mem hnd (candidateNames_nodup hash hinj docText) hall,
      candidateNames_length]
  have hmem2 : ∀ e ∈ store.filter (fun e => !decide (e.1 ∈ candidateNames hash docText)),
      fileMatches (hashesToDelete hash (docText.take 5000)) e.1 = false := by
    intro e he
    have hm := List.mem_filter.mp he
    rw [hcong e hm.1]
    simpa using hm.2
  constructor
  · rw [invalidateForDocument, deleteMatching_eq_filter, hfs, hlen]
  · rw [invalidateForDocument, deleteMatching_eq_filter,
      List.filter_eq_self.mpr (fun e he => by rw [hmem2 e he]; rfl),
      show ((store.filter (fun e => !decide (e.1 ∈ candidateNames hash docText))).filter
          (fun e => fileMatches (hashesToDelete hash (docText.take 5000)) e.1)).length = 0 by
        rw [List.length_eq_zero]
        exact List.filter_eq_nil_iff.mpr (fun e he => by rw [hmem2 e he]; exact Bool.false_ne_true)]

def docW : Str := "hola".data

def storeW : Store :=
  [("hola|femenina|es.mp3".data, [1]), ("hola|femenina|en.mp3".data, [2]),
   ("hola|masculina|es.mp3".data, [3]), ("hola|masculina|en.mp3".data, [4])]

/-- Witness for claim C1: a concrete store holding the four candidate entries
of the text `hola` under the identity hash, on which the first invalidation
deletes all four entries with count 4 and the second deletes nothing. -/
theorem claim_C1_witness :
    invalidateForDocument id docW storeW =
      (storeW.filter (fun e => !decide (e.1 ∈ candidateNames id docW)), 4) ∧
    invalidateForDocument id docW
        (storeW.filter (fun e => !decide (e.1 ∈ candidateNames id docW))) =
      (storeW.filter (fun e => !decide (e.1 ∈ candidateNames id docW)), 0) :=
  claim_C1 id Function.injective_id docW storeW
    (by
      intro e he
      simp only [storeW, List.mem_cons, List.not_mem_nil, or_false] at he
      rcases he with rfl | rfl | rfl | rfl
      · exact ⟨"hola|femenina|es".data, by decide, by decide⟩
      · exact ⟨"hola|femenina|en".data, by decide, by decide⟩
      · exact ⟨"hola|masculina|es".data, by decide, by decide⟩
      · exact ⟨"hola|masculina|en".data, by decide, by decide⟩)
    (by decide) (by decide)

/-- Claim C8: an entry cached for document A's truncated text (under one of the
enumerated voice type and language combinations) survives
`invalidateForDocument` with document B's text whenever the truncated texts
differ — candidate fingerprints do not collide across distinct texts for an
injective hash; moreover the surviving store is exactly the original store
without the matching entries, and every removed entry's reconstructed hash is
one of B's candidate fingerprints. -/
theorem claim_C8 (hash : Str → Str) (hinj : Function.Injective hash)
    (store : Store) (tA tB : Str)
    (hAB : tA.take 5000 ≠ tB.take 5000)
    (eA : Str × Audio) (heA : eA ∈ store)
    (vtA lgA : Str) (hvtA : vtA ∈ voiceTypes) (hlgA : lgA ∈ languages)
    (hname : eA.1 = hash (candText (tA.take 5000) vtA lgA) ++ mp3S)
    (hdot : '.' ∉ hash (candText (tA.take 5000) vtA lgA)) :
    eA ∈ (invalidateForDocument hash tB store).1 ∧
    (invalidateForDocument hash tB store).1 =
      store.filter (fun e => !fileMatches (hashesToDelete hash (tB.take 5000)) e.1) ∧
    ∀ e ∈ store, e ∉ (invalidateForDocument hash tB store).1 →
      replaceFirst mp3S e.1 ∈ hashesToDelete hash (tB.take 5000) := by
  have hframe : (invalidateForDocument hash tB store).1 =
      store.filter (fun e => !fileMatches (hashesToDelete hash (tB.take 5000)) e.1) := by
    rw [invalidateForDocument, deleteMatching_eq_filter]
  refine ⟨?_, hframe, ?_⟩
  · rw [hframe]
    refine List.mem_filter.mpr ⟨heA, ?_⟩
    rw [hname, fileMatches_wf _ hdot]
    simp only [Bool.not_eq_eq_eq_not, Bool.not_true, decide_eq_false_iff_not]
    intro hmem
    simp only [hashesToDelete, List.mem_flatMap, List.mem_map] at hmem
    obtain ⟨vt, hvt, lg, hlg, he⟩ := hmem
    obtain ⟨ht, -, -⟩ := candText_inj hvtA hvt hlgA hlg (hinj he.symm)
    exact hAB ht
  · intro e he hnotin
    rw [hframe] at hnotin
    have hfm : fileMatches (hashesToDelete hash (tB.take 5000)) e.1 = true := by
      cases hb : fileMatches (hashesToDelete hash (tB.take 5000)) e.1
      · exact absurd (List.mem_filter.mpr ⟨he, by rw [hb]; rfl⟩) hnotin
      · rfl
    have := (Bool.and_eq_true _ _).mp hfm
    exact of_decide_eq_true this.2

def tAW : Str := "hola".data

def tBW : Str := "adios".data

def storeAW : Store := [("hola|femenina|es.mp3".data, [1])]

/-- Witness for claim C8: under the identity hash, the cached entry for the
text `hola` survives an invalidation driven by the text `adios`. -/
theorem claim_C8_witness :
    ("hola|femenina|es.mp3".data, ([1] : Audio)) ∈ (invalidateForDocument id tBW storeAW).1 ∧
    (invalidateForDocument id tBW storeAW).1 =
      storeAW.filter (fun e => !fileMatches (hashesToDelete id (tBW.take 5000)) e.1) ∧
    ∀ e ∈ storeAW, e ∉ (invalidateForDocument id tBW storeAW).1 →
      replaceFirst mp3S e.1 ∈ hashesToDelete id (tBW.take 5000) :=
  claim_C8 id Function.injective_id storeAW tAW tBW (by decide)
    ("hola|femenina|es.mp3".data, [1]) (by decide) femeninaS esS (by decide) (by decide)
    (by decide) (by decide)

/-- Claim C4: truncation to 5000 characters is applied by the same rule at
synthesis-time key derivation and at invalidation-time reconstruction, so two
texts agreeing on their first 5000 characters (and not degenerating to
whitespace-only input) are indistinguishable to the speak endpoint — same
fingerprint, same cache entry, same outcome — and to the invalidation scan. -/
theorem claim_C4 (hash : Str → Str) (env : Env) (cloud : CloudRequest → Except CloudErr Audio)
    (fallback : Str → Str → Except Str Audio) (store : Store)
    (t1 t2 : Str) (lang vd vt vs : Option Str)
    (hpre : t1.take 5000 = t2.take 5000)
    (h5 : (t1.take 5000).all Char.isWhitespace = false) :
    speak hash env cloud fallback store ⟨t1, lang, vd, vt, vs⟩ =
      speak hash env cloud fallback store ⟨t2, lang, vd, vt, vs⟩ ∧
    invalidateForDocument hash t1 store = invalidateForDocument hash t2 store := by
  have hb : ∀ t : Str, t.take 5000 = t1.take 5000 → t.all Char.isWhitespace = false := by
    intro t ht
    cases hbool : t.all Char.isWhitespace
    · rfl
    · exfalso
      have hall : (t.take 5000).all Char.isWhitespace = true := by
        rw [List.all_eq_true] at hbool ⊢
        exact fun c hc => hbool c (List.mem_of_mem_take hc)
      rw [ht, h5] at hall
      exact Bool.false_ne_true hall
  have hb1 : t1.all Char.isWhitespace = false := hb t1 rfl
  have hb2 : t2.all Char.isWhitespace = false := hb t2 hpre.symm
  constructor
  · simp only [speak, speakFileName, reqTrunc, reqLang, reqVoiceType, reqStyle, reqDesc,
      hb1, hb2, hpre, Bool.false_eq_true, if_false]
  · simp only [invalidateForDocument, hpre]

def t1W : Str := List.replicate 5000 'a' ++ List.replicate 1000 'a'

def t2W : Str := List.replicate 5000 'a' ++ ['b']

/-- Witness for claim C4: a 6000-character text and a variant agreeing on the
first 5000 characters but differing after position 5000 drive the speak
endpoint and the invalidation scan identically. -/
theorem claim_C4_witness :
    speak id ⟨false, false, false⟩ (fun _ => Except.error ⟨[]⟩) (fun _ _ => Except.ok [7]) []
      ⟨t1W, none, none, none, none⟩ =
      speak id ⟨false, false, false⟩ (fun _ => Except.error ⟨[]⟩) (fun _ _ => Except.ok [7]) []
        ⟨t2W, none, none, none, none⟩ ∧
    invalidateForDocument id t1W [] = invalidateForDocument id t2W [] := by
  have hlen : (5000 : Nat) ≤ (List.replicate 5000 'a').length :=
    Nat.le_of_eq (List.length_replicate 5000 'a').symm
  have hrep : (List.replicate 5000 'a').take 5000 = List.replicate 5000 'a' := by
    rw [List.take_replicate, Nat.min_self]
  have ht1 : t1W.take 5000 = List.replicate 5000 'a' := by
    rw [t1W, List.take_append_of_le_length hlen, hrep]
  have ht2 : t2W.take 5000 = List.replicate 5000 'a' := by
    rw [t2W, List.take_append_of_le_length hlen, hrep]
  have hpre : t1W.take 5000 = t2W.take 5000 := ht1.trans ht2.symm
  have h5 : (t1W.take 5000).all Char.isWhitespace = false := by
    rw [ht1, Bool.eq_false_iff]
    intro hall
    rw [List.all_eq_true] at hall
    have := hall 'a' (List.mem_replicate.mpr ⟨by decide, rfl⟩)
    exact absurd this (by decide)
  exact claim_C4 id ⟨false, false, false⟩ (fun _ => Except.error ⟨[]⟩) (fun _ _ => Except.ok [7])
    [] t1W t2W none none none none hpre h5

/-- Counterexample to claim C2: at a concrete style-free request, the string
the code hashes has three fields (the description is dropped entirely), while
the spec's canonical string has four; two requests differing only in their
description therefore share the code's hash input even though the spec's
canonical strings differ. -/
theorem claim_C2_counterexample :
    cacheKeyInput "a".data none femeninaS esS (some "x".data) =
      cacheKeyInput "a".data none femeninaS esS none ∧
    specCanonicalString "a".data none femeninaS esS (some "x".data) ≠
      specCanonicalString "a".data none femeninaS esS none ∧
    cacheKeyInput "a".data none femeninaS esS none ≠
      specCanonicalString "a".data none femeninaS esS none := by
  decide

/-- Claim C2 amended: with a style present, the fingerprint input is the
four-field string `text|style|language|description-or-empty`; with no style it
is the three-field string `text|voiceType|language`, and the description does
not influence the fingerprint at all. -/
theorem claim_C2_amended (hash : Str → Str) (text : Str) (lang : Option Str)
    (vt : Option Str) (st dd : Str) (hst : st ≠ []) :
    speakFileName hash ⟨text, lang, some dd, vt, some st⟩ =
      hash (text.take 5000 ++ pipeS ++ st ++ pipeS ++ lang.getD esS ++ pipeS ++ dd) ++ mp3S ∧
    speakFileName hash ⟨text, lang, some dd, vt, none⟩ =
      hash (text.take 5000 ++ pipeS ++ jsOrStr vt femeninaS ++ pipeS ++ lang.getD esS) ++ mp3S ∧
    speakFileName hash ⟨text, lang, some dd, vt, none⟩ =
      speakFileName hash ⟨text, lang, none, vt, none⟩ := by
  have hstE : st.isEmpty = false := by
    cases st
    · exact absurd rfl hst
    · rfl
  refine ⟨?_, ?_, ?_⟩
  · simp only [speakFileName, reqTrunc, reqStyle, reqDesc, reqLang, reqVoiceType, jsToNull,
      hstE, Bool.false_eq_true, if_false, cacheKeyInput]
    by_cases hdd : dd.isEmpty
    · rw [if_pos hdd, List.isEmpty_iff.mp hdd]
      rfl
    · rw [if_neg hdd]
      rfl
  · rfl
  · rfl

/-- Witness for the amended claim C2, at the concrete request with text
`hola`, style `podcast`, language `en`, voice type absent and description
`x`, under the identity hash. -/
theorem claim_C2_amended_witness :
    speakFileName id ⟨"hola".data, some enS, some "x".data, none, some podcastS⟩ =
      id ("hola".data.take 5000 ++ pipeS ++ podcastS ++ pipeS ++ (some enS).getD esS ++ pipeS ++
        "x".data) ++ mp3S ∧
    speakFileName id ⟨"hola".data, some enS, some "x".data, none, none⟩ =
      id ("hola".data.take 5000 ++ pipeS ++ jsOrStr none femeninaS ++ pipeS ++
        (some enS).getD esS) ++ mp3S ∧
    speakFileName id ⟨"hola".data, some enS, some "x".data, none, none⟩ =
      speakFileName id ⟨"hola".data, some enS, none, none, none⟩ :=
  claim_C2_amended id "hola".data (some enS) none podcastS "x".data (by decide)

/-- Counterexample to claim C3: the fingerprint is computed from the raw
request language, before any normalization, so under an (injective) digest
the language `en-US` and its primary subtag `en` produce different
fingerprints, as do an unsupported language `fr` and the default `es`. -/
theorem claim_C3_counterexample :
    speakFileName id ⟨"hola".data, some "en-US".data, none, none, none⟩ ≠
      speakFileName id ⟨"hola".data, some enS, none, none, none⟩ ∧
    speakFileName id ⟨"hola".data, some "fr".data, none, none, none⟩ ≠
      speakFileName id ⟨"hola".data, some esS, none, none, none⟩ := by
  decide

/-- Claim C3 amended: the cache fingerprint is derived from the raw request
language (distinct raw language codes give distinct fingerprints under an
injective hash), and language normalization happens only afterwards, inside
each backend: the cloud branch reduces a region subtag and coerces anything
outside es/en to es, and the gTTS branch reduces a region subtag and coerces
anything outside its allow-list to es. -/
theorem claim_C3_amended (hash : Str → Str) (hinj : Function.Injective hash)
    (text : Str) (vd vt : Option Str) (l1 l2 : Str) (hne : l1 ≠ l2) :
    speakFileName hash ⟨text, some l1, vd, vt, none⟩ ≠
      speakFileName hash ⟨text, some l2, vd, vt, none⟩ ∧
    googleNormalizedLang "en-US".data = enS ∧
    gttsNormalizedLang "en-US".data = enS ∧
    googleNormalizedLang "fr".data = esS ∧
    gttsNormalizedLang "fr".data = "fr".data ∧
    gttsNormalizedLang "xx".data = esS := by
  refine ⟨?_, by decide, by decide, by decide, by decide, by decide⟩
  intro h
  simp only [speakFileName, reqTrunc, reqStyle, reqDesc, reqLang, reqVoiceType, jsToNull,
    cacheKeyInput, Option.getD_some] at h
  exact hne (List.append_cancel_left (hinj (List.append_cancel_right h)))

/-- Witness for the amended claim C3, at the identity hash with languages
`en-US` and `en`. -/
theorem claim_C3_amended_witness :
    speakFileName id ⟨"hola".data, some "en-US".data, none, none, none⟩ ≠
      speakFileName id ⟨"hola".data, some enS, none, none, none⟩ ∧
    googleNormalizedLang "en-US".data = enS ∧
    gttsNormalizedLang "en-US".data = enS ∧
    googleNormalizedLang "fr".data = esS ∧
    gttsNormalizedLang "fr".data = "fr".data ∧
    gttsNormalizedLang "xx".data = esS :=
  claim_C3_amended id Function.injective_id "hola".data none none "en-US".data enS (by decide)

/-! Branch characterizations of the provider chain. -/

theorem gttsStage_hit {fallback : Str → Str → Except Str Audio} {store : Store}
    {fileName t lang : Str} {calls : List BackendCall} {bytes : Audio}
    (hf : Store.findFile? store fileName = some bytes) :
    gttsStage fallback store fileName t lang calls = ⟨.ok bytes, store, calls⟩ := by
  unfold gttsStage
  rw [hf]

theorem gttsStage_saveErr {fallback : Str → Str → Except Str Audio} {store : Store}
    {fileName t lang : Str} {calls : List BackendCall} {msg : Str}
    (hf : Store.findFile? store fileName = none)
    (hfb : fallback t (gttsNormalizedLang lang) = .error msg) :
    gttsStage fallback store fileName t lang calls =
      ⟨.error (.gttsSave msg), store, calls ++ [.gtts t (gttsNormalizedLang lang)]⟩ := by
  unfold gttsStage
  rw [hf, hfb]

theorem gttsStage_emptyAudio {fallback : Str → Str → Except Str Audio} {store : Store}
    {fileName t lang : Str} {calls : List BackendCall} {audio : Audio}
    (hf : Store.findFile? store fileName = none)
    (hfb : fallback t (gttsNormalizedLang lang) = .ok audio) (he : audio.isEmpty = true) :
    gttsStage fallback store fileName t lang calls =
      ⟨.error .gttsEmpty, store, calls ++ [.gtts t (gttsNormalizedLang lang)]⟩ := by
  unfold gttsStage
  rw [hf, hfb]
  simp only [he, if_true]

theorem gttsStage_success {fallback : Str → Str → Except Str Audio} {store : Store}
    {fileName t lang : Str} {calls : List BackendCall} {audio : Audio}
    (hf : Store.findFile? store fileName = none)
    (hfb : fallback t (gttsNormalizedLang lang) = .ok audio) (he : audio.isEmpty = false) :
    gttsStage fallback store fileName t lang calls =
      ⟨.ok audio, Store.insertFile store fileName audio,
        calls ++ [.gtts t (gttsNormalizedLang lang)]⟩ := by
  unfold gttsStage
  rw [hf, hfb]
  simp only [he, Bool.false_eq_true, if_false]

theorem googleStage_ok {cloud : CloudRequest → Except CloudErr Audio}
    {fallback : Str → Str → Except Str Audio} {store : Store}
    {fileName t lang : Str} {style : Option Str} {vt : Str} {audio : Audio}
    (hc : cloud (enhancedRequest t lang style vt) = .ok audio) :
    googleStage cloud fallback store fileName t lang style vt =
      ⟨.ok audio, Store.insertFile store fileName audio,
        [.cloud (enhancedRequest t lang style vt)]⟩ := by
  unfold googleStage
  rw [hc]

theorem googleStage_retry_ok {cloud : CloudRequest → Except CloudErr Audio}
    {fallback : Str → Str → Except Str Audio} {store : Store}
    {fileName t lang : Str} {style : Option Str} {vt : Str} {e : CloudErr} {audio : Audio}
    (hc : cloud (enhancedRequest t lang style vt) = .error e) (hme : isModelError e = true)
    (hc2 : cloud (standardRequest t lang vt) = .ok audio) :
    googleStage cloud fallback store fileName t lang style vt =
      ⟨.ok audio, Store.insertFile store fileName audio,
        [.cloud (enhancedRequest t lang style vt), .cloud (standardRequest t lang vt)]⟩ := by
  unfold googleStage
  rw [hc]
  simp only [hme, if_true, hc2]

theorem googleStage_retry_err {cloud : CloudRequest → Except CloudErr Audio}
    {fallback : Str → Str → Except Str Audio} {store : Store}
    {fileName t lang : Str} {style : Option Str} {vt : Str} {e e2 : CloudErr}
    (hc : cloud (enhancedRequest t lang style vt) = .error e) (hme : isModelError e = true)
    (hc2 : cloud (standardRequest t lang vt) = .error e2) :
    googleStage cloud fallback store fileName t lang style vt =
      gttsStage fallback store fileName t lang
        [.cloud (enhancedRequest t lang style vt), .cloud (standardRequest t lang vt)] := by
  unfold googleStage
  rw [hc]
  simp only [hme, if_true, hc2]

theorem googleStage_other_err {cloud : CloudRequest → Except CloudErr Audio}
    {fallback : Str → Str → Except Str Audio} {store : Store}
    {fileName t lang : Str} {style : Option Str} {vt : Str} {e : CloudErr}
    (hc : cloud (enhancedRequest t lang style vt) = .error e) (hme : isModelError e = false) :
    googleStage cloud fallback store fileName t lang style vt =
      gttsStage fallback store fileName t lang [.cloud (enhancedRequest t lang style vt)] := by
  unfold googleStage
  rw [hc]
  simp only [hme, Bool.false_eq_true, if_false]

theorem speak_blank {hash : Str → Str} {env : Env} {cloud : CloudRequest → Except CloudErr Audio}
    {fallback : Str → Str → Except Str Audio} {store : Store} {r : SpeakReq}
    (hb : r.text.all Char.isWhitespace = true) :
    speak hash env cloud fallback store r = ⟨.error .emptyText, store, []⟩ := by
  unfold speak
  simp only [hb, if_true]

theorem speak_hit {hash : Str → Str} {env : Env} {cloud : CloudRequest → Except CloudErr Audio}
    {fallback : Str → Str → Except Str Audio} {store : Store} {r : SpeakReq} {bytes : Audio}
    (hb : r.text.all Char.isWhitespace = false)
    (hf : Store.findFile? store (speakFileName hash r) = some bytes) :
    speak hash env cloud fallback store r = ⟨.ok bytes, store, []⟩ := by
  unfold speak
  simp only [hb, Bool.false_eq_true, if_false, hf]

theorem speak_google {hash : Str → Str} {env : Env} {cloud : CloudRequest → Except CloudErr Audio}
    {fallback : Str → Str → Except Str Audio} {store : Store} {r : SpeakReq}
    (hb : r.text.all Char.isWhitespace = false)
    (hf : Store.findFile? store (speakFileName hash r) = none)
    (hg : env.useGoogleTTS = true) :
    speak hash env cloud fallback store r =
      googleStage cloud fallback store (speakFileName hash r) (reqTrunc r) (reqLang r)
        (reqStyle r) (reqVoiceType r) := by
  unfold speak
  simp only [hb, Bool.false_eq_true, if_false, hf, hg, if_true]

theorem speak_gtts {hash : Str → Str} {env : Env} {cloud : CloudRequest → Except CloudErr Audio}
    {fallback : Str → Str → Except Str Audio} {store : Store} {r : SpeakReq}
    (hb : r.text.all Char.isWhitespace = false)
    (hf : Store.findFile? store (speakFileName hash r) = none)
    (hg : env.useGoogleTTS = false) :
    speak hash env cloud fallback store r =
      gttsStage fallback store (speakFileName hash r) (reqTrunc r) (reqLang r) [] := by
  unfold speak
  simp only [hb, Bool.false_eq_true, if_false, hf, hg]

theorem gttsStage_store_or (fallback : Str → Str → Except Str Audio) (store : Store)
    (fileName t lang : Str) (calls : List BackendCall) :
    (gttsStage fallback store fileName t lang calls).store = store ∨
    ∃ b, (gttsStage fallback store fileName t lang calls).result = .ok b ∧
      (gttsStage fallback store fileName t lang calls).store =
        Store.insertFile store fileName b := by
  cases hf : Store.findFile? store fileName with
  | some bytes => rw [gttsStage_hit hf]; exact Or.inl rfl
  | none =>
      cases hfb : fallback t (gttsNormalizedLang lang) with
      | error msg => rw [gttsStage_saveErr hf hfb]; exact Or.inl rfl
      | ok audio =>
          cases he : audio.isEmpty with
          | true => rw [gttsStage_emptyAudio hf hfb he]; exact Or.inl rfl
          | false => rw [gttsStage_success hf hfb he]; exact Or.inr ⟨audio, rfl, rfl⟩

theorem googleStage_store_or (cloud : CloudRequest → Except CloudErr Audio)
    (fallback : Str → Str → Except Str Audio) (store : Store)
    (fileName t lang : Str) (style : Option Str) (vt : Str) :
    (googleStage cloud fallback store fileName t lang style vt).store = store ∨
    ∃ b, (googleStage cloud fallback store fileName t lang style vt).result = .ok b ∧
      (googleStage cloud fallback store fileName t lang style vt).store =
        Store.insertFile store fileName b := by
  cases hc : cloud (enhancedRequest t lang style vt) with
  | ok audio => rw [googleStage_ok hc]; exact Or.inr ⟨audio, rfl, rfl⟩
  | error e =>
      cases hme : isModelError e with
      | false => rw [googleStage_other_err hc hme]; exact gttsStage_store_or _ _ _ _ _ _
      | true =>
          cases hc2 : cloud (standardRequest t lang vt) with
          | ok audio => rw [googleStage_retry_ok hc hme hc2]; exact Or.inr ⟨audio, rfl, rfl⟩
          | error e2 => rw [googleStage_retry_err hc hme hc2]; exact gttsStage_store_or _ _ _ _ _ _

theorem speak_store_or (hash : Str → Str) (env : Env)
    (cloud : CloudRequest → Except CloudErr Audio) (fallback : Str → Str → Except Str Audio)
    (store : Store) (req : SpeakReq) :
    (speak hash env cloud fallback store req).store = store ∨
    ∃ b, (speak hash env cloud fallback store req).result = .ok b ∧
      (speak hash env cloud fallback store req).store =
        Store.insertFile store (speakFileName hash req) b := by
  cases hb : req.text.all Char.isWhitespace with
  | true => rw [speak_blank hb]; exact Or.inl rfl
  | false =>
      cases hf : Store.findFile? store (speakFileName hash req) with
      | some bytes => rw [speak_hit hb hf]; exact Or.inl rfl
      | none =>
          cases hg : env.useGoogleTTS with
          | true => rw [speak_google hb hf hg]; exact googleStage_store_or _ _ _ _ _ _ _ _
          | false => rw [speak_gtts hb hf hg]; exact gttsStage_store_or _ _ _ _ _ _

theorem gttsStage_ok_find {fallback : Str → Str → Except Str Audio} {store : Store}
    {fileName t lang : Str} {calls : List BackendCall} {b : Audio} {s2 : Store}
    {cs : List BackendCall}
    (h : gttsStage fallback store fileName t lang calls = ⟨.ok b, s2, cs⟩) :
    Store.findFile? s2 fileName = some b := by
  cases hf : Store.findFile? store fileName with
  | some bytes =>
      rw [gttsStage_hit hf, Outcome.mk.injEq] at h
      obtain ⟨h1, rfl, -⟩ := h
      rw [hf]
      exact congrArg some (Except.ok.inj h1)
  | none =>
      cases hfb : fallback t (gttsNormalizedLang lang) with
      | error msg =>
          rw [gttsStage_saveErr hf hfb, Outcome.mk.injEq] at h
          exact absurd h.1 (by simp)
      | ok audio =>
          cases he : audio.isEmpty with
          | true =>
              rw [gttsStage_emptyAudio hf hfb he, Outcome.mk.injEq] at h
              exact absurd h.1 (by simp)
          | false =>
              rw [gttsStage_success hf hfb he, Outcome.mk.injEq] at h
              obtain ⟨h1, rfl, -⟩ := h
              have hab := Except.ok.inj h1
              subst hab
              exact findFile_insert store fileName audio

theorem googleStage_ok_find {cloud : CloudRequest → Except CloudErr Audio}
    {fallback : Str → Str → Except Str Audio} {store : Store}
    {fileName t lang : Str} {style : Option Str} {vt : Str} {b : Audio} {s2 : Store}
    {cs : List BackendCall}
    (h : googleStage cloud fallback store fileName t lang style vt = ⟨.ok b, s2, cs⟩) :
    Store.findFile? s2 fileName = some b := by
  cases hc : cloud (enhancedRequest t lang style vt) with
  | ok audio =>
      rw [googleStage_ok hc, Outcome.mk.injEq] at h
      obtain ⟨h1, rfl, -⟩ := h
      have hab := Except.ok.inj h1
      subst hab
      exact findFile_insert store fileName audio
  | error e =>
      cases hme : isModelError e with
      | false =>
          rw [googleStage_other_err hc hme] at h
          exact gttsStage_ok_find h
      | true =>
          cases hc2 : cloud (standardRequest t lang vt) with
          | ok audio =>
              rw [googleStage_retry_ok hc hme hc2, Outcome.mk.injEq] at h
              obtain ⟨h1, rfl, -⟩ := h
              have hab := Except.ok.inj h1
              subst hab
              exact findFile_insert store fileName audio
          | error e2 =>
              rw [googleStage_retry_err hc hme hc2] at h
              exact gttsStage_ok_find h

theorem speak_ok_find {hash : Str → Str} {env : Env}
    {cloud : CloudRequest → Except CloudErr Audio} {fallback : Str → Str → Except Str Audio}
    {store : Store} {req : SpeakReq} {b : Audio} {s2 : Store} {cs : List BackendCall}
    (h : speak hash env cloud fallback store req = ⟨.ok b, s2, cs⟩) :
    req.text.all Char.isWhitespace = false ∧
      Store.findFile? s2 (speakFileName hash req) = some b := by
  cases hb : req.text.all Char.isWhitespace with
  | true =>
      rw [speak_blank hb, Outcome.mk.injEq] at h
      exact absurd h.1 (by simp)
  | false =>
      refine ⟨rfl, ?_⟩
      cases hf : Store.findFile? store (speakFileName hash req) with
      | some bytes =>
          rw [speak_hit hb hf, Outcome.mk.injEq] at h
          obtain ⟨h1, rfl, -⟩ := h
          rw [hf]
          exact congrArg some (Except.ok.inj h1)
      | none =>
          cases hg : env.useGoogleTTS with
          | true =>
              rw [speak_google hb hf hg] at h
              exact googleStage_ok_find h
          | false =>
              rw [speak_gtts hb hf hg] at h
              exact gttsStage_ok_find h

theorem speakFileName_desc_indep (hash : Str → Str) (text : Str) (lang vt vs d1 d2 : Option Str)
    (hvs : jsToNull vs = none) :
    speakFileName hash ⟨text, lang, d1, vt, vs⟩ = speakFileName hash ⟨text, lang, d2, vt, vs⟩ := by
  simp only [speakFileName, reqTrunc, reqStyle, reqDesc, reqLang, reqVoiceType, hvs, cacheKeyInput]

theorem speak_req_congr (hash : Str → Str) (env : Env)
    (cloud : CloudRequest → Except CloudErr Audio) (fallback : Str → Str → Except Str Audio)
    (store : Store) {r1 r2 : SpeakReq}
    (htext : r1.text = r2.text) (hfn : speakFileName hash r1 = speakFileName hash r2)
    (htr : reqTrunc r1 = reqTrunc r2) (hlang : reqLang r1 = reqLang r2)
    (hst : reqStyle r1 = reqStyle r2) (hvt : reqVoiceType r1 = reqVoiceType r2) :
    speak hash env cloud fallback store r1 = speak hash env cloud fallback store r2 := by
  unfold speak
  rw [htext, hfn, htr, hlang, hst, hvt]

theorem gttsStage_rc_indep (fallback : Str → Str → Except Str Audio) (store : Store)
    (fn1 fn2 t lang : Str) (calls : List BackendCall)
    (h1 : Store.findFile? store fn1 = none) (h2 : Store.findFile? store fn2 = none) :
    (gttsStage fallback store fn1 t lang calls).result =
      (gttsStage fallback store fn2 t lang calls).result ∧
    (gttsStage fallback store fn1 t lang calls).calls =
      (gttsStage fallback store fn2 t lang calls).calls := by
  cases hfb : fallback t (gttsNormalizedLang lang) with
  | error msg => rw [gttsStage_saveErr h1 hfb, gttsStage_saveErr h2 hfb]; exact ⟨rfl, rfl⟩
  | ok audio =>
      cases he : audio.isEmpty with
      | true => rw [gttsStage_emptyAudio h1 hfb he, gttsStage_emptyAudio h2 hfb he]
                exact ⟨rfl, rfl⟩
      | false => rw [gttsStage_success h1 hfb he, gttsStage_success h2 hfb he]
                 exact ⟨rfl, rfl⟩

theorem googleStage_rc_indep (cloud : CloudRequest → Except CloudErr Audio)
    (fallback : Str → Str → Except Str Audio) (store : Store)
    (fn1 fn2 t lang : Str) (style : Option Str) (vt : Str)
    (h1 : Store.findFile? store fn1 = none) (h2 : Store.findFile? store fn2 = none) :
    (googleStage cloud fallback store fn1 t lang style vt).result =
      (googleStage cloud fallback store fn2 t lang style vt).result ∧
    (googleStage cloud fallback store fn1 t lang style vt).calls =
      (googleStage cloud fallback store fn2 t lang style vt).calls := by
  cases hc : cloud (enhancedRequest t lang style vt) with
  | ok audio => rw [googleStage_ok hc, googleStage_ok hc]; exact ⟨rfl, rfl⟩
  | error e =>
      cases hme : isModelError e with
      | false =>
          rw [googleStage_other_err hc hme, googleStage_other_err hc hme]
          exact gttsStage_rc_indep _ _ _ _ _ _ _ h1 h2
      | true =>
          cases hc2 : cloud (standardRequest t lang vt) with
          | ok audio =>
              rw [googleStage_retry_ok hc hme hc2, googleStage_retry_ok hc hme hc2]
              exact ⟨rfl, rfl⟩
          | error e2 =>
              rw [googleStage_retry_err hc hme hc2, googleStage_retry_err hc hme hc2]
              exact gttsStage_rc_indep _ _ _ _ _ _ _ h1 h2

/-! Shared concrete inputs for the witnesses of the speak-endpoint claims. -/

def envOffW : Env := ⟨false, false, false⟩

def envOnW : Env := ⟨true, false, false⟩

def cloudFailW : CloudRequest → Except CloudErr Audio := fun _ => .error ⟨"quota".data⟩

def cloudModelW : CloudRequest → Except CloudErr Audio :=
  fun r => if r.model.isSome then .error ⟨"unsupported model".data⟩ else .ok [5]

def fbOkW : Str → Str → Except Str Audio := fun _ _ => .ok [7]

def fbErrW : Str → Str → Except Str Audio := fun _ _ => .error "boom".data

def reqW : SpeakReq := ⟨"hola".data, none, none, none, none⟩

def storeW1 : Store := [("hola|femenina|es.mp3".data, [7])]

/-- Claim C5: after a first successful speak call has written the store entry,
a second call with identical inputs returns the byte-identical cached audio,
leaves the store unchanged, and invokes no synthesis backend. -/
theorem claim_C5 (hash : Str → Str) (env : Env) (cloud : CloudRequest → Except CloudErr Audio)
    (fallback : Str → Str → Except Str Audio) (store : Store) (req : SpeakReq)
    (b : Audio) (s2 : Store) (cs : List BackendCall)
    (h : speak hash env cloud fallback store req = ⟨.ok b, s2, cs⟩) :
    speak hash env cloud fallback s2 req = ⟨.ok b, s2, []⟩ := by
  obtain ⟨hb, hfind⟩ := speak_ok_find h
  exact speak_hit hb hfind

/-- Witness for claim C5: a concrete first call through the gTTS fallback,
followed by a second identical call served from the cache with no backend
invocation. -/
theorem claim_C5_witness :
    speak id envOffW cloudFailW fbOkW [] reqW =
      ⟨.ok [7], storeW1, [.gtts "hola".data esS]⟩ ∧
    speak id envOffW cloudFailW fbOkW storeW1 reqW = ⟨.ok [7], storeW1, []⟩ := by
  have h1 : speak id envOffW cloudFailW fbOkW [] reqW =
      ⟨.ok [7], storeW1, [.gtts "hola".data esS]⟩ := by decide
  exact ⟨h1, claim_C5 id envOffW cloudFailW fbOkW [] reqW [7] storeW1 _ h1⟩

/-- Claim C6: with no cloud credential signal present, an uncached non-blank
request never attempts the cloud backend, raises no error for the missing
configuration, and succeeds via the gTTS fallback on the same already
truncated text, provided the fallback produces non-empty audio. -/
theorem claim_C6 (hash : Str → Str) (env : Env) (cloud : CloudRequest → Except CloudErr Audio)
    (fallback : Str → Str → Except Str Audio) (store : Store) (req : SpeakReq) (b : Audio)
    (henv : env.useGoogleTTS = false)
    (hb : req.text.all Char.isWhitespace = false)
    (hmiss : Store.findFile? store (speakFileName hash req) = none)
    (hfb : fallback (reqTrunc req) (gttsNormalizedLang (reqLang req)) = .ok b)
    (hne : b.isEmpty = false) :
    speak hash env cloud fallback store req =
      ⟨.ok b, Store.insertFile store (speakFileName hash req) b,
        [.gtts (reqTrunc req) (gttsNormalizedLang (reqLang req))]⟩ := by
  rw [speak_gtts hb hmiss henv, gttsStage_success hmiss hfb hne, List.nil_append]

/-- Witness for claim C6 at the concrete credential-free environment. -/
theorem claim_C6_witness :
    speak id envOffW cloudFailW fbOkW [] reqW =
      ⟨.ok [7], Store.insertFile [] (speakFileName id reqW) [7],
        [.gtts (reqTrunc reqW) (gttsNormalizedLang (reqLang reqW))]⟩ :=
  claim_C6 id envOffW cloudFailW fbOkW [] reqW [7] rfl (by decide) rfl rfl rfl

/-- Claim C7: when the cloud backend rejects the enhanced Gemini voice with an
error classified as unsupported model/voice, it retries exactly once with the
standard voice for the same language and voice type, and a successful retry
answers the request without reaching the gTTS backend; a cloud failure not so
classified skips the retry and falls through to the gTTS stage after a single
cloud call. -/
theorem claim_C7 (hash : Str → Str) (env : Env) (cloud : CloudRequest → Except CloudErr Audio)
    (fallback : Str → Str → Except Str Audio) (store : Store) (req : SpeakReq)
    (henv : env.useGoogleTTS = true)
    (hb : req.text.all Char.isWhitespace = false)
    (hmiss : Store.findFile? store (speakFileName hash req) = none) :
    (∀ e b,
      cloud (enhancedRequest (reqTrunc req) (reqLang req) (reqStyle req) (reqVoiceType req)) =
        .error e →
      isModelError e = true →
      cloud (standardRequest (reqTrunc req) (reqLang req) (reqVoiceType req)) = .ok b →
      speak hash env cloud fallback store req =
        ⟨.ok b, Store.insertFile store (speakFileName hash req) b,
          [.cloud (enhancedRequest (reqTrunc req) (reqLang req) (reqStyle req) (reqVoiceType req)),
           .cloud (standardRequest (reqTrunc req) (reqLang req) (reqVoiceType req))]⟩) ∧
    (∀ e,
      cloud (enhancedRequest (reqTrunc req) (reqLang req) (reqStyle req) (reqVoiceType req)) =
        .error e →
      isModelError e = false →
      speak hash env cloud fallback store req =
        gttsStage fallback store (speakFileName hash req) (reqTrunc req) (reqLang req)
          [.cloud (enhancedRequest (reqTrunc req) (reqLang req) (reqStyle req)
            (reqVoiceType req))]) := by
  constructor
  · intro e b hc hme hc2
    rw [speak_google hb hmiss henv, googleStage_retry_ok hc hme hc2]
  · intro e hc hme
    rw [speak_google hb hmiss henv, googleStage_other_err hc hme]

/-- Witness for claim C7: a cloud backend that rejects exactly the Gemini
request with an unsupported-model message and accepts the standard-voice
retry yields the retried result without a gTTS call, while a backend failing
with a quota message falls through to the gTTS stage after one cloud call. -/
theorem claim_C7_witness :
    speak id envOnW cloudModelW fbOkW [] reqW =
      ⟨.ok [5], Store.insertFile [] (speakFileName id reqW) [5],
        [.cloud (enhancedRequest (reqTrunc reqW) (reqLang reqW) (reqStyle reqW)
          (reqVoiceType reqW)),
         .cloud (standardRequest (reqTrunc reqW) (reqLang reqW) (reqVoiceType reqW))]⟩ ∧
    speak id envOnW cloudFailW fbOkW [] reqW =
      gttsStage fbOkW [] (speakFileName id reqW) (reqTrunc reqW) (reqLang reqW)
        [.cloud (enhancedRequest (reqTrunc reqW) (reqLang reqW) (reqStyle reqW)
          (reqVoiceType reqW))] := by
  constructor
  · exact (claim_C7 id envOnW cloudModelW fbOkW [] reqW rfl (by decide) rfl).1
      ⟨"unsupported model".data⟩ [5] rfl (by decide) rfl
  · exact (claim_C7 id envOnW cloudFailW fbOkW [] reqW rfl (by decide) rfl).2
      ⟨"quota".data⟩ rfl (by decide)

/-- Claim C9: the voiceDescription field never influences the synthesized
audio.  With no style the whole outcome is description-independent; with any
voice specification, for two uncached requests differing only in their
description the backend invocations issued (cloud requests and fallback call
alike) and the response are identical — the description can at most move
which cache entry the same bytes are stored under. -/
theorem claim_C9 (hash : Str → Str) (env : Env) (cloud : CloudRequest → Except CloudErr Audio)
    (fallback : Str → Str → Except Str Audio) (store : Store)
    (text : Str) (lang vt vs d1 d2 : Option Str) :
    (jsToNull vs = none →
      speak hash env cloud fallback store ⟨text, lang, d1, vt, vs⟩ =
        speak hash env cloud fallback store ⟨text, lang, d2, vt, vs⟩) ∧
    (Store.findFile? store (speakFileName hash ⟨text, lang, d1, vt, vs⟩) = none →
      Store.findFile? store (speakFileName hash ⟨text, lang, d2, vt, vs⟩) = none →
      (speak hash env cloud fallback store ⟨text, lang, d1, vt, vs⟩).result =
        (speak hash env cloud fallback store ⟨text, lang, d2, vt, vs⟩).result ∧
      (speak hash env cloud fallback store ⟨text, lang, d1, vt, vs⟩).calls =
        (speak hash env cloud fallback store ⟨text, lang, d2, vt, vs⟩).calls) := by
  constructor
  · intro hvs
    exact speak_req_congr hash env cloud fallback store rfl
      (speakFileName_desc_indep hash text lang vt vs d1 d2 hvs) rfl rfl rfl rfl
  · intro hm1 hm2
    cases hb : text.all Char.isWhitespace with
    | true =>
        rw [speak_blank (r := ⟨text, lang, d1, vt, vs⟩) hb,
          speak_blank (r := ⟨text, lang, d2, vt, vs⟩) hb]
        exact ⟨rfl, rfl⟩
    | false =>
        cases hg : env.useGoogleTTS with
        | true =>
            rw [speak_google (r := ⟨text, lang, d1, vt, vs⟩) hb hm1 hg,
              speak_google (r := ⟨text, lang, d2, vt, vs⟩) hb hm2 hg]
            exact googleStage_rc_indep _ _ _ _ _ _ _ _ _ hm1 hm2
        | false =>
            rw [speak_gtts (r := ⟨text, lang, d1, vt, vs⟩) hb hm1 hg,
              speak_gtts (r := ⟨text, lang, d2, vt, vs⟩) hb hm2 hg]
            exact gttsStage_rc_indep _ _ _ _ _ _ _ hm1 hm2

/-- Witness for claim C9 at a concrete pair of requests differing only in
their description. -/
theorem claim_C9_witness :
    (speak id envOffW cloudFailW fbOkW [] ⟨"hola".data, none, some "x".data, none, none⟩ =
      speak id envOffW cloudFailW fbOkW [] ⟨"hola".data, none, none, none, none⟩) ∧
    ((speak id envOffW cloudFailW fbOkW [] ⟨"hola".data, none, some "x".data, none, none⟩).result =
      (speak id envOffW cloudFailW fbOkW [] ⟨"hola".data, none, none, none, none⟩).result ∧
     (speak id envOffW cloudFailW fbOkW [] ⟨"hola".data, none, some "x".data, none, none⟩).calls =
      (speak id envOffW cloudFailW fbOkW [] ⟨"hola".data, none, none, none, none⟩).calls) := by
  have h := claim_C9 id envOffW cloudFailW fbOkW [] "hola".data none none none
    (some "x".data) none
  exact ⟨h.1 rfl, h.2 rfl rfl⟩

/-- Claim C10: a failing request leaves the store unchanged — a cache entry
is written only on the success path, after a backend has returned non-empty
audio, so no entry is created for the fingerprint of a request on which every
backend failed or the fallback produced an empty file. -/
theorem claim_C10 (hash : Str → Str) (env : Env) (cloud : CloudRequest → Except CloudErr Audio)
    (fallback : Str → Str → Except Str Audio) (store : Store) (req : SpeakReq) (e : SpeakErr)
    (h : (speak hash env cloud fallback store req).result = .error e) :
    (speak hash env cloud fallback store req).store = store := by
  rcases speak_store_or hash env cloud fallback store req with hs | ⟨b, hb, -⟩
  · exact hs
  · rw [h] at hb
    exact absurd hb (by simp)

/-- Witness for claim C10: with every backend failing, the concrete request
errors and the store stays empty. -/
theorem claim_C10_witness :
    (speak id envOffW cloudFailW fbErrW [] reqW).store = [] :=
  claim_C10 id envOffW cloudFailW fbErrW [] reqW (.gttsSave "boom".data) (by decide)
